import Mathlib

/-!
Verification of the AIArtwork pipeline (`src/main.py`): a sequential
content pipeline that generates an image idea, expands it into a prompt,
invokes an image-generation endpoint, materializes the image locally as a
JPEG, and publishes it via browser automation.

The embedding models each Python function as a pure Lean function over an
explicit environment describing the external world (HTTP responses, the
filesystem, the browser driver).  A function that can let a Python
exception escape to its caller returns `PyResult`, distinguishing a normal
return from an uncaught exception.
-/

/-- Shapes of Python values relevant to the endpoint responses:
strings, integers, tuples, lists, dicts (association lists with string
keys, as produced by JSON parsing) and `None`. -/
inductive PyVal where
  | str : String → PyVal
  | int : Int → PyVal
  | tuple : List PyVal → PyVal
  | list : List PyVal → PyVal
  | dict : List (String × PyVal) → PyVal
  | none : PyVal

/-- Outcome of running a Python function: a normal return value, or an
exception that escaped uncaught (tagged with the exception kind). -/
inductive PyResult (α : Type) where
  | ok : α → PyResult α
  | exn : String → PyResult α
  deriving DecidableEq, Repr

/-- Python truthiness (`if not x`) on the modelled values. -/
def pyFalsy : PyVal → Bool
  | .str s => s.isEmpty
  | .int n => n == 0
  | .tuple l => l.isEmpty
  | .list l => l.isEmpty
  | .dict l => l.isEmpty
  | .none => true

/-- `d.get(key, default)`: on a dict, the value at `key` or the default;
on any other value an `AttributeError` is raised. -/
def pyGet (v : PyVal) (key : String) (default : PyVal) : Except String PyVal :=
  match v with
  | .dict kvs => .ok ((kvs.lookup key).getD default)
  | _ => .error "AttributeError"

/-- `v[0]`: the first element of a list or tuple, the first character of a
string; `IndexError` when empty, `KeyError` on a dict without key `0`,
`TypeError` on non-subscriptable values. -/
def pyIndex0 : PyVal → Except String PyVal
  | .list (x :: _) => .ok x
  | .list [] => .error "IndexError"
  | .tuple (x :: _) => .ok x
  | .tuple [] => .error "IndexError"
  | .str s => if s.isEmpty then .error "IndexError" else .ok (.str s.front.toString)
  | .dict _ => .error "KeyError"
  | _ => .error "TypeError"

/-- Python `str.strip()` with no argument: removes whitespace from both
ends of the string. -/
def pyStripStr (s : String) : String :=
  String.mk (((s.data.dropWhile Char.isWhitespace).reverse.dropWhile Char.isWhitespace).reverse)

/-- `v.strip()`: trims surrounding whitespace of a string; on any other
value an `AttributeError` is raised. -/
def pyStrip : PyVal → Except String String
  | .str s => .ok (pyStripStr s)
  | _ => .error "AttributeError"

/-- `data.get("choices", [{}])[0].get("message", {}).get("content", "").strip()`
from `generate_image_idea` / `generate_detailed_prompt` (src/main.py:51,72).
Any step may raise; only `requests.RequestException` is caught by the
callers, and none of these raise it. -/
def extract_content (data : PyVal) : Except String String :=
  match pyGet data "choices" (.list [.dict []]) with
  | .error e => .error e
  | .ok choices =>
    match pyIndex0 choices with
    | .error e => .error e
    | .ok c0 =>
      match pyGet c0 "message" (.dict []) with
      | .error e => .error e
      | .ok msg =>
        match pyGet msg "content" (.str "") with
        | .error e => .error e
        | .ok content => pyStrip content

/-- Environment for one call to the text-generation endpoint:
`.error ()` means `requests.post`, `raise_for_status` or `response.json()`
raised a `requests.RequestException` (network failure, timeout, non-2xx
status, or malformed JSON body); `.ok data` is the parsed JSON body. -/
def TextEnv : Type := Except Unit PyVal

/-- `generate_image_idea` (src/main.py:37-55): posts a fixed instruction to
the text endpoint; on `RequestException` logs and returns `None`; otherwise
extracts `choices[0].message.content`, strips it, and returns it when
non-empty, `None` when empty.  Extraction errors (e.g. `IndexError` on an
empty `choices` list) are not `RequestException` and escape uncaught. -/
def generate_image_idea (env : TextEnv) : PyResult (Option String) :=
  match env with
  | .error _ => .ok Option.none
  | .ok data =>
    match extract_content data with
    | .error e => .exn e
    | .ok idea => .ok (if idea.isEmpty then Option.none else some idea)

/-- `generate_detailed_prompt` (src/main.py:58-76): identical transport and
extraction logic to `generate_image_idea`; the idea is interpolated into
the request payload only. -/
def generate_detailed_prompt (_idea : String) (env : TextEnv) : PyResult (Option String) :=
  match env with
  | .error _ => .ok Option.none
  | .ok data =>
    match extract_content data with
    | .error e => .exn e
    | .ok prompt => .ok (if prompt.isEmpty then Option.none else some prompt)

/-- Environment for `generate_ai_image`: whether `Client(HUGGINGFACE_FLUX_API)`
raises (that call is outside the `try` block), the outcome of
`client.predict` (`.error` = any exception during the call, caught by the
`except Exception` handler), and the filesystem predicate behind
`os.path.exists`. -/
structure FluxEnv where
  clientRaises : Bool
  predict : String → Except String PyVal
  pathExists : String → Bool

/-- The response-shape classification inside `generate_ai_image`
(src/main.py:92-101): a tuple of length ≥ 1 with a string first element is
a local path, accepted only if it exists on disk; a non-empty list whose
first element is a dict containing `"url"` yields that url value; every
other shape logs "Unexpected response format" and yields `None`. -/
def classifyFluxResponse (pathExists : String → Bool) (result : PyVal) : Option PyVal :=
  match result with
  | .tuple (.str local_path :: _) =>
    if pathExists local_path then some (.str local_path) else Option.none
  | .list (.dict m :: _) =>
    match m.lookup "url" with
    | some u => some u
    | Option.none => Option.none
  | _ => Option.none

/-- `generate_ai_image` (src/main.py:79-104): constructs the gradio client
(outside the `try`, so a constructor exception propagates), calls
`predict`, and classifies the response; all exceptions from `predict` and
the classification are caught by `except Exception` and yield `None`. -/
def generate_ai_image (env : FluxEnv) (prompt : String) : PyResult (Option PyVal) :=
  if env.clientRaises then .exn "client construction failed" else
  match env.predict prompt with
  | .error _ => .ok Option.none
  | .ok result => .ok (classifyFluxResponse env.pathExists result)

/-- Content of a file on disk in the model: raw bytes as fetched or
copied (identified by an abstract content id), or a JPEG written by
`img.save(filename, "JPEG")` after `.convert("RGB")` — by PIL semantics
such a file is a JPEG encoding of a 3-channel image. -/
inductive FileData where
  | raw (content : Nat)
  | jpegRGB (content : Nat)
  deriving DecidableEq, Repr

/-- The abstract content id carried by a file. -/
def FileData.content : FileData → Nat
  | .raw c => c
  | .jpegRGB c => c

/-- A file is decodable as a 3-channel JPEG exactly when it was written by
the PIL `convert("RGB")`-then-`save(..., "JPEG")` step. -/
def FileData.isJpeg3 : FileData → Bool
  | .raw _ => false
  | .jpegRGB _ => true

/-- Python `s.startswith(pre)`: the characters of `pre` are a prefix of
the characters of `s`. -/
def pyStartsWith (s pre : String) : Bool :=
  pre.data.isPrefixOf s.data

/-- Environment for `download_image`: the HTTP GET oracle (`.error ()` is a
`requests.RequestException`, including non-2xx via `raise_for_status`),
the initial filesystem, whether `shutil.copy` succeeds, whether
`Image.open` can decode given file contents, and the uuid-based
destination filename. -/
structure DlEnv where
  httpGet : String → Except Unit Nat
  fs : String → Option FileData
  copyOk : Bool
  decodes : FileData → Bool
  freshName : String

/-- Pointwise filesystem update: writing `data` at `name`. -/
def fsWrite (fs : String → Option FileData) (name : String) (data : FileData) :
    String → Option FileData :=
  fun n => if n = name then some data else fs n

/-- `download_image` (src/main.py:107-125): picks a fresh
`generated_image_<uuid>.jpg` name; if the reference starts with `"http"`
it is fetched over HTTP and the body written to the fresh name, else if it
exists as a local path it is copied there, else logs and returns `None`;
either write is followed by `Image.open(filename).convert("RGB")` and
`img.save(filename, "JPEG")`.  `RequestException`, `shutil.Error` and
`IOError` are caught and yield `None`.  Returns the result together with
the final filesystem. -/
def download_image (env : DlEnv) (image_path_or_url : String) :
    Option String × (String → Option FileData) :=
  let filename := env.freshName
  if pyStartsWith image_path_or_url "http" then
    match env.httpGet image_path_or_url with
    | .error _ => (Option.none, env.fs)
    | .ok content =>
      let fs1 := fsWrite env.fs filename (.raw content)
      if env.decodes (.raw content) then
        (some filename, fsWrite fs1 filename (.jpegRGB content))
      else
        (Option.none, fs1)
  else
    match env.fs image_path_or_url with
    | some fd =>
      if env.copyOk then
        let fs1 := fsWrite env.fs filename fd
        if env.decodes fd then
          (some filename, fsWrite fs1 filename (.jpegRGB fd.content))
        else
          (Option.none, fs1)
      else
        (Option.none, env.fs)
    | Option.none => (Option.none, env.fs)

/-- Observable events of one `post_to_instagram` call, in order:
the three bot method invocations, `InstagramBot.close`, and the
`driver.quit()` that `close` performs when a driver was created. -/
inductive Ev where
  | initDriver
  | login
  | postImage
  | close
  | quit
  deriving DecidableEq, Repr

/-- Outcome of one bot method as seen by `post_to_instagram`: a truthy
return, a falsy return, or a raised exception. -/
inductive StepR where
  | ok
  | fail
  | exn
  deriving DecidableEq, Repr

/-- Environment for `post_to_instagram`: the outcome of `init_driver`
(`.exn` models `webdriver.Chrome` raising, in which case `self.driver`
stays `None`; it has no return value so `.fail` is treated as `.ok`),
of `login`, and of `post_image`. -/
structure BotEnv where
  initR : StepR
  loginR : StepR
  postR : StepR

/-- The `try` body of `post_to_instagram` (src/main.py:264-267):
the events it performs, whether `self.driver` was assigned, the `success`
value, and whether an exception was raised (to be caught by `except`). -/
def instagramTryBody (env : BotEnv) : List Ev × Bool × Bool × Bool :=
  match env.initR with
  | .exn => ([.initDriver], false, false, true)
  | _ =>
    match env.loginR with
    | .exn => ([.initDriver, .login], true, false, true)
    | .fail => ([.initDriver, .login], true, false, false)
    | .ok =>
      match env.postR with
      | .exn => ([.initDriver, .login, .postImage], true, false, true)
      | .fail => ([.initDriver, .login, .postImage], true, false, false)
      | .ok => ([.initDriver, .login, .postImage], true, true, false)

/-- `post_to_instagram` (src/main.py:261-272): runs the try body, catches
any exception, and in the `finally` block calls `bot.close()` — which
calls `driver.quit()` only when a driver exists (src/main.py:257-259) —
then returns `success`.  Returns the success flag and the full ordered
event trace of the call. -/
def post_to_instagram (env : BotEnv) : Bool × List Ev :=
  match instagramTryBody env with
  | (evs, driverSet, success, _raised) =>
    (success, evs ++ Ev.close :: (if driverSet then [Ev.quit] else []))

/-- The required environment variable names (src/main.py:27). -/
def required_vars : List String :=
  ["OPENROUTER_API_KEY", "INSTAGRAM_USERNAME", "INSTAGRAM_PASSWORD", "HUGGINGFACE_FLUX_API"]

/-- Python falsiness of an `os.getenv` result: an unset variable returns
`None` (falsy) and an empty-string value is also falsy. -/
def envFalsy : Option String → Bool
  | Option.none => true
  | some s => s.isEmpty

/-- The startup loop over `required_vars` (src/main.py:28-31): at the
first variable whose `os.getenv` value is falsy, logs and calls `exit(1)`
(`some 1`); if none is falsy, falls through (`none`) and the module
continues. -/
def checkVars (vars : List String) (getenv : String → Option String) : Option Nat :=
  match vars with
  | [] => Option.none
  | v :: rest =>
    if envFalsy (getenv v) then some 1 else checkVars rest getenv

/-- Pipeline stages of the main workflow, in execution order. -/
inductive Stage where
  | idea
  | prompt
  | synth
  | materialize
  | publish
  deriving DecidableEq, Repr

/-- How the process ended: `exitCode n` for a normal end (`0`) or an
explicit `exit(n)`, `uncaught e` when a Python exception escaped `__main__`. -/
inductive ProcExit where
  | exitCode (n : Nat)
  | uncaught (e : String)
  deriving DecidableEq, Repr

/-- Observable outcome of one run of the `__main__` workflow. -/
structure MainResult where
  exit : ProcExit
  stages : List Stage
  fs : String → Option FileData
  successLogged : Bool

/-- Environment for one full run: the two text-endpoint responses, the
image-endpoint environment, the materializer environment and the browser
environment. -/
structure MainEnv where
  ideaEnv : TextEnv
  promptEnv : TextEnv
  flux : FluxEnv
  dl : DlEnv
  bot : BotEnv

/-- The `__main__` workflow (src/main.py:275-299): runs the stages in
sequence, aborting with `exit(1)` and an error log at the first stage that
returns a falsy value; a stage that raises crashes the process; after a
successful `download_image` it calls `post_to_instagram`, discards its
result, logs "Process completed successfully." and ends with exit status
0.  Between the synthesizer and the materializer, `if not image_path_or_url`
applies Python truthiness to the classified value, and `download_image`
calls `.startswith` on it, raising `AttributeError` if it is not a string. -/
def mainWorkflow (env : MainEnv) : MainResult :=
  match generate_image_idea env.ideaEnv with
  | .exn e => ⟨.uncaught e, [.idea], env.dl.fs, false⟩
  | .ok Option.none => ⟨.exitCode 1, [.idea], env.dl.fs, false⟩
  | .ok (some idea) =>
    match generate_detailed_prompt idea env.promptEnv with
    | .exn e => ⟨.uncaught e, [.idea, .prompt], env.dl.fs, false⟩
    | .ok Option.none => ⟨.exitCode 1, [.idea, .prompt], env.dl.fs, false⟩
    | .ok (some detailed_prompt) =>
      match generate_ai_image env.flux detailed_prompt with
      | .exn e => ⟨.uncaught e, [.idea, .prompt, .synth], env.dl.fs, false⟩
      | .ok Option.none => ⟨.exitCode 1, [.idea, .prompt, .synth], env.dl.fs, false⟩
      | .ok (some v) =>
        if pyFalsy v then ⟨.exitCode 1, [.idea, .prompt, .synth], env.dl.fs, false⟩
        else
          match v with
          | .str image_path_or_url =>
            match download_image env.dl image_path_or_url with
            | (Option.none, fs1) =>
              ⟨.exitCode 1, [.idea, .prompt, .synth, .materialize], fs1, false⟩
            | (some image_path, fs1) =>
              let _caption := "Generated by AI: " ++ detailed_prompt ++ " #AIArt #AIGenerated"
              let _post := post_to_instagram env.bot
              let _ := image_path
              ⟨.exitCode 0, [.idea, .prompt, .synth, .materialize, .publish], fs1, true⟩
          | _ =>
            ⟨.uncaught "AttributeError", [.idea, .prompt, .synth, .materialize], env.dl.fs, false⟩

/-- The `for _ in range(n)` retry loop of `handle_popup`: `found i` says
whether the wait finds the dismiss target clickable on attempt `i`
(0-based); on success the loop clicks and returns `True`, on
`TimeoutException` it logs, sleeps and retries; after the last attempt it
returns `False`.  Also returns the number of attempts made. -/
def handle_popup_loop (found : Nat → Bool) : Nat → Nat → Bool × Nat
  | 0, attempts => (false, attempts)
  | n + 1, attempts =>
    if found attempts then (true, attempts + 1)
    else handle_popup_loop found n (attempts + 1)

/-- `InstagramBot.handle_popup` (src/main.py:151-163): the retry loop with
`range(2)`, i.e. at most two attempts. -/
def handle_popup (found : Nat → Bool) : Bool × Nat :=
  handle_popup_loop found 2 0

/-- Environment for `InstagramBot.login`: whether `driver.get` succeeds,
the per-attempt visibility of the three optional popups, and whether each
of the three credential elements is found within the wait timeout
(`False` models a `TimeoutException`, caught by the `except Exception`). -/
structure LoginEnv where
  pageLoads : Bool
  consentPopup : Nat → Bool
  saveLoginPopup : Nat → Bool
  notifPopup : Nat → Bool
  usernameFound : Bool
  passwordFound : Bool
  loginBtnFound : Bool

/-- `InstagramBot.login` (src/main.py:165-195): loads the page, probes the
cookie-consent popup (result discarded), locates and fills the username,
password and submit elements — a timeout on any of these raises, is caught,
and returns `False` — then probes the two post-login popups (results
discarded) and returns `True`. -/
def login (env : LoginEnv) : Bool :=
  if !env.pageLoads then false
  else
    let _consent := handle_popup env.consentPopup
    if !env.usernameFound then false
    else if !env.passwordFound then false
    else if !env.loginBtnFound then false
    else
      let _saveInfo := handle_popup env.saveLoginPopup
      let _notif := handle_popup env.notifPopup
      true

/-- The whole process (src/main.py:17-299): module initialization runs the
`required_vars` loop first; only when no variable is falsy does execution
reach the `__main__` workflow. -/
def runProcess (getenv : String → Option String) (env : MainEnv) : MainResult :=
  match checkVars required_vars getenv with
  | some n => ⟨.exitCode n, [], env.dl.fs, false⟩
  | Option.none => mainWorkflow env

/-- A text-endpoint response whose `choices[0].message.content` is `s`. -/
def textRespW (s : String) : TextEnv :=
  .ok (.dict [("choices", .list [.dict [("message", .dict [("content", .str s)])]])])

/-- A run environment in which both text stages succeed but the image
endpoint answers with an unrecognized shape (an empty dict), so the
synthesizer stage fails. -/
def mainEnvAbortW : MainEnv :=
  ⟨textRespW "idea", textRespW "prompt",
   ⟨false, fun _ => .ok (.dict []), fun _ => false⟩,
   ⟨fun _ => .error (), fun _ => Option.none, true, fun _ => false, "generated_image_w.jpg"⟩,
   ⟨.ok, .ok, .ok⟩⟩

/-- A run environment in which every stage up to materialization succeeds
while the Instagram login fails, so the publish attempt reports failure. -/
def mainEnvOkW : MainEnv :=
  ⟨textRespW "idea", textRespW "prompt",
   ⟨false, fun _ => .ok (.tuple [.str "src.png"]), fun p => p == "src.png"⟩,
   ⟨fun _ => .error (),
    fun n => if n = "src.png" then some (.raw 7) else Option.none,
    true, fun _ => true, "generated_image_w.jpg"⟩,
   ⟨.ok, .fail, .ok⟩⟩

/-- C1: for every response value returned by the image-generation
endpoint (so the client was constructed and `predict` returned `v`),
`generate_ai_image` classifies it: a tuple whose first element is a
string naming an existing path yields that path; a non-empty list whose
first element is a dict with a `"url"` field yields that url value; any
other shape — including a tuple whose path does not exist or a first list
element without `"url"` — yields Failure (`None`); and no unhandled
exception escapes. -/
theorem generate_ai_image_classifies (env : FluxEnv) (prompt : String) (v : PyVal)
    (hclient : env.clientRaises = false) (hresp : env.predict prompt = .ok v) :
    (∃ r, generate_ai_image env prompt = .ok r) ∧
    (∀ p rest, v = .tuple (.str p :: rest) → env.pathExists p = true →
      generate_ai_image env prompt = .ok (some (.str p))) ∧
    (∀ m rest u, v = .list (.dict m :: rest) → m.lookup "url" = some u →
      generate_ai_image env prompt = .ok (some u)) ∧
    ((∀ p rest, v = .tuple (.str p :: rest) → env.pathExists p = false) →
     (∀ m rest, v = .list (.dict m :: rest) → m.lookup "url" = Option.none) →
      generate_ai_image env prompt = .ok Option.none) := by
  have hbase : generate_ai_image env prompt = .ok (classifyFluxResponse env.pathExists v) := by
    simp [generate_ai_image, hclient, hresp]
  refine ⟨⟨_, hbase⟩, ?_, ?_, ?_⟩
  · rintro p rest rfl hp
    simp [hbase, classifyFluxResponse, hp]
  · rintro m rest u rfl hu
    simp [hbase, classifyFluxResponse, hu]
  · intro h1 h2
    rw [hbase]
    cases v with
    | tuple l =>
      cases l with
      | nil => rfl
      | cons x rest =>
        cases x with
        | str p => simp [classifyFluxResponse, h1 p rest rfl]
        | int n => rfl
        | tuple t => rfl
        | list t => rfl
        | dict d => rfl
        | none => rfl
    | list l =>
      cases l with
      | nil => rfl
      | cons x rest =>
        cases x with
        | str p => rfl
        | int n => rfl
        | tuple t => rfl
        | list t => rfl
        | dict m => simp [classifyFluxResponse, h2 m rest rfl]
        | none => rfl
    | str s => rfl
    | int n => rfl
    | dict d => rfl
    | none => rfl

/-- Witness for C1 at a concrete environment: the endpoint returns a
one-element tuple holding an existing path, and the classifier returns
that path. -/
theorem generate_ai_image_classifies_witness :
    (FluxEnv.mk false (fun _ => Except.ok (PyVal.tuple [.str "a.png"])) (fun _ => true)).clientRaises
        = false ∧
    generate_ai_image
        (FluxEnv.mk false (fun _ => Except.ok (PyVal.tuple [.str "a.png"])) (fun _ => true)) "p"
      = .ok (some (.str "a.png")) :=
  ⟨rfl,
    (generate_ai_image_classifies
      (FluxEnv.mk false (fun _ => Except.ok (PyVal.tuple [.str "a.png"])) (fun _ => true))
      "p" (PyVal.tuple [.str "a.png"]) rfl rfl).2.1 "a.png" [] rfl rfl⟩

/-- C2: on every execution of `post_to_instagram` — success, a falsy
return or an exception from any of `init_driver`, `login`, `post_image` —
`InstagramBot.close` appears exactly once in the event trace of the call (so it
runs exactly once before the call returns), and nothing but the
`driver.quit` it performs follows it. -/
theorem post_to_instagram_closes_once (env : BotEnv) :
    ((post_to_instagram env).2.count Ev.close = 1) ∧
    ((post_to_instagram env).2.getLast? = some Ev.close ∨
     (post_to_instagram env).2.getLast? = some Ev.quit) := by
  obtain ⟨i, l, p⟩ := env
  cases i <;> cases l <;> cases p <;> simp [post_to_instagram, instagramTryBody]

/-- C3: the optional-dialog probe `handle_popup` returns `false` after
exactly 2 attempts when the dismiss target is never clickable, and returns
`true` after the first attempt (never making a second) when the target is
found on attempt 1; and the outcome of the enclosing `login` flow is
independent of the probe results — it is determined solely by the page
load and the three credential elements. -/
theorem handle_popup_probe (found : Nat → Bool) (env : LoginEnv) :
    ((found 0 = false ∧ found 1 = false) → handle_popup found = (false, 2)) ∧
    (found 0 = true → handle_popup found = (true, 1)) ∧
    login env = (env.pageLoads && env.usernameFound && env.passwordFound && env.loginBtnFound) := by
  refine ⟨?_, ?_, ?_⟩
  · rintro ⟨h0, h1⟩
    simp [handle_popup, handle_popup_loop, h0, h1]
  · intro h0
    simp [handle_popup, handle_popup_loop, h0]
  · obtain ⟨pg, c, sv, nt, u, pw, lb⟩ := env
    cases pg <;> cases u <;> cases pw <;> cases lb <;> simp [login]

/-- Witness for C3: with the dialog never appearing the probe reports
`(false, 2)`, and a login environment whose popups never appear but whose
credential elements are all present still logs in. -/
theorem handle_popup_probe_witness :
    ((fun _ : Nat => false) 0 = false ∧ (fun _ : Nat => false) 1 = false) ∧
    handle_popup (fun _ => false) = (false, 2) ∧
    login (LoginEnv.mk true (fun _ => false) (fun _ => false) (fun _ => false) true true true)
      = true :=
  ⟨⟨rfl, rfl⟩,
    (handle_popup_probe (fun _ => false)
      (LoginEnv.mk true (fun _ => false) (fun _ => false) (fun _ => false) true true true)).1
      ⟨rfl, rfl⟩,
    (handle_popup_probe (fun _ => false)
      (LoginEnv.mk true (fun _ => false) (fun _ => false) (fun _ => false) true true true)).2.2⟩

/-- Counterexample to C4: a 200-status response with the well-formed JSON
body `{"choices": []}` makes `generate_image_idea` raise an uncaught
`IndexError` (from `data.get("choices", [{}])[0]` on the empty list, not a
`requests.RequestException`), contradicting the claim that every malformed
response body — including an empty `choices` list — is caught and
converted to a Failure return. -/
theorem empty_choices_raises :
    generate_image_idea (.ok (.dict [("choices", PyVal.list [])])) = .exn "IndexError" := by
  decide

/-- C4 as amended: every pipeline stage converts its caught error classes
to a logged Failure return — the text stages catch every
`requests.RequestException` (network failure, non-2xx status, JSON-decode
failure), the image stage catches every exception from `predict` and the
response classification, and the materializer catches transport, copy and
decode errors and returns Failure on an unusable reference; but a
well-formed JSON body whose `choices` list is empty raises an uncaught
`IndexError` from either text stage, and an exception raised while
constructing the image-endpoint client (which sits outside the `try`
block) propagates out of `generate_ai_image`. -/
theorem stage_error_handling_amended (idea prompt e : String) (flux : FluxEnv)
    (dl : DlEnv) (input : String) (b : Nat) (fd : FileData) :
    (generate_image_idea (.error ()) = .ok Option.none) ∧
    (generate_detailed_prompt idea (.error ()) = .ok Option.none) ∧
    (flux.clientRaises = false → flux.predict prompt = .error e →
      generate_ai_image flux prompt = .ok Option.none) ∧
    (flux.clientRaises = false → ∃ r, generate_ai_image flux prompt = .ok r) ∧
    (flux.clientRaises = true →
      generate_ai_image flux prompt = .exn "client construction failed") ∧
    (generate_image_idea (.ok (.dict [("choices", PyVal.list [])])) = .exn "IndexError") ∧
    (generate_detailed_prompt idea (.ok (.dict [("choices", PyVal.list [])]))
      = .exn "IndexError") ∧
    (pyStartsWith input "http" = true → dl.httpGet input = .error () →
      download_image dl input = (Option.none, dl.fs)) ∧
    (pyStartsWith input "http" = false → dl.fs input = some fd → dl.copyOk = false →
      download_image dl input = (Option.none, dl.fs)) ∧
    (pyStartsWith input "http" = true → dl.httpGet input = .ok b →
      dl.decodes (.raw b) = false → (download_image dl input).1 = Option.none) ∧
    (pyStartsWith input "http" = false → dl.fs input = Option.none →
      download_image dl input = (Option.none, dl.fs)) := by
  refine ⟨rfl, rfl, ?_, ?_, ?_, by decide, rfl, ?_, ?_, ?_, ?_⟩
  · intro hc hp
    simp [generate_ai_image, hc, hp]
  · intro hc
    cases hp : flux.predict prompt with
    | error e' => exact ⟨Option.none, by simp [generate_ai_image, hc, hp]⟩
    | ok v => exact ⟨classifyFluxResponse flux.pathExists v, by simp [generate_ai_image, hc, hp]⟩
  · intro hc
    simp [generate_ai_image, hc]
  · intro hpre hget
    simp [download_image, hpre, hget]
  · intro hpre hfs hcopy
    simp [download_image, hpre, hfs, hcopy]
  · intro hpre hget hdec
    simp [download_image, hpre, hget, hdec]
  · intro hpre hfs
    simp [download_image, hpre, hfs]

/-- Witness for the amended C4: a concrete client-construction failure
propagates, a concrete `predict` exception is caught, the empty-choices
body raises from the prompt stage too, and a concrete materializer
transport failure is caught and returns Failure. -/
theorem stage_error_handling_amended_witness :
    (FluxEnv.mk true (fun _ => Except.error "boom") (fun _ => false)).clientRaises = true ∧
    generate_ai_image (FluxEnv.mk true (fun _ => Except.error "boom") (fun _ => false)) "p"
      = .exn "client construction failed" ∧
    generate_ai_image (FluxEnv.mk false (fun _ => Except.error "boom") (fun _ => false)) "p"
      = .ok Option.none ∧
    generate_detailed_prompt "i" (.ok (.dict [("choices", PyVal.list [])]))
      = .exn "IndexError" ∧
    download_image
      (DlEnv.mk (fun _ => Except.error ()) (fun _ => Option.none) true (fun _ => true) "g.jpg")
      "http://x/i.png"
      = (Option.none, fun _ => Option.none) :=
  ⟨rfl,
    (stage_error_handling_amended "i" "p" "boom"
      (FluxEnv.mk true (fun _ => Except.error "boom") (fun _ => false))
      (DlEnv.mk (fun _ => Except.error ()) (fun _ => Option.none) true (fun _ => true) "g.jpg")
      "http://x/i.png" 0 (FileData.raw 0)).2.2.2.2.1 rfl,
    (stage_error_handling_amended "i" "p" "boom"
      (FluxEnv.mk false (fun _ => Except.error "boom") (fun _ => false))
      (DlEnv.mk (fun _ => Except.error ()) (fun _ => Option.none) true (fun _ => true) "g.jpg")
      "http://x/i.png" 0 (FileData.raw 0)).2.2.1 rfl rfl,
    (stage_error_handling_amended "i" "p" "boom"
      (FluxEnv.mk false (fun _ => Except.error "boom") (fun _ => false))
      (DlEnv.mk (fun _ => Except.error ()) (fun _ => Option.none) true (fun _ => true) "g.jpg")
      "http://x/i.png" 0 (FileData.raw 0)).2.2.2.2.2.2.1,
    (stage_error_handling_amended "i" "p" "boom"
      (FluxEnv.mk false (fun _ => Except.error "boom") (fun _ => false))
      (DlEnv.mk (fun _ => Except.error ()) (fun _ => Option.none) true (fun _ => true) "g.jpg")
      "http://x/i.png" 0 (FileData.raw 0)).2.2.2.2.2.2.2.1 rfl rfl⟩

/-- C6: for a well-formed text-endpoint response whose
`choices[0].message.content` is the string `s`, both text stages return
`s` trimmed when the trim is non-empty and Failure (`None`) when it is
empty; when the `content` field (or the whole `choices` field) is missing,
the empty-string default makes them return Failure. -/
theorem text_stages_return_trimmed_content (obj m mm : List (String × PyVal))
    (rest : List PyVal) (s idea : String) :
    (obj.lookup "choices" = some (.list (.dict m :: rest)) →
     m.lookup "message" = some (.dict mm) →
     mm.lookup "content" = some (.str s) →
      ((pyStripStr s).isEmpty = false →
        generate_image_idea (.ok (.dict obj)) = .ok (some (pyStripStr s)) ∧
        generate_detailed_prompt idea (.ok (.dict obj)) = .ok (some (pyStripStr s))) ∧
      ((pyStripStr s).isEmpty = true →
        generate_image_idea (.ok (.dict obj)) = .ok Option.none ∧
        generate_detailed_prompt idea (.ok (.dict obj)) = .ok Option.none)) ∧
    (obj.lookup "choices" = some (.list (.dict m :: rest)) →
     m.lookup "message" = some (.dict mm) →
     mm.lookup "content" = Option.none →
        generate_image_idea (.ok (.dict obj)) = .ok Option.none ∧
        generate_detailed_prompt idea (.ok (.dict obj)) = .ok Option.none) ∧
    (obj.lookup "choices" = Option.none →
        generate_image_idea (.ok (.dict obj)) = .ok Option.none ∧
        generate_detailed_prompt idea (.ok (.dict obj)) = .ok Option.none) := by
  refine ⟨?_, ?_, ?_⟩
  · intro h1 h2 h3
    have hext : extract_content (.dict obj) = .ok (pyStripStr s) := by
      simp [extract_content, pyGet, pyIndex0, pyStrip, h1, h2, h3]
    constructor
    · intro hne
      simp [generate_image_idea, generate_detailed_prompt, hext, hne]
    · intro hemp
      simp [generate_image_idea, generate_detailed_prompt, hext, hemp]
  · intro h1 h2 h3
    have hext : extract_content (.dict obj) = .ok "" := by
      simp [extract_content, pyGet, pyIndex0, pyStrip, h1, h2, h3, pyStripStr]
    have hemp : String.isEmpty "" = true := rfl
    simp [generate_image_idea, generate_detailed_prompt, hext, hemp]
  · intro h1
    have hext : extract_content (.dict obj) = .ok "" := by
      simp [extract_content, pyGet, pyIndex0, pyStrip, h1, pyStripStr]
    have hemp : String.isEmpty "" = true := rfl
    simp [generate_image_idea, generate_detailed_prompt, hext, hemp]

/-- Witness for C6 at a concrete response with content `" a fox "`:
both stages return the trimmed string `"a fox"`. -/
theorem text_stages_return_trimmed_content_witness :
    ([("choices", PyVal.list [.dict [("message", PyVal.dict [("content", PyVal.str " a fox ")])]])].lookup "choices"
      = some (.list (.dict [("message", PyVal.dict [("content", PyVal.str " a fox ")])] :: []))) ∧
    generate_image_idea
      (.ok (.dict [("choices", PyVal.list [.dict [("message", PyVal.dict [("content", PyVal.str " a fox ")])]])]))
      = .ok (some "a fox") :=
  ⟨rfl,
    ((text_stages_return_trimmed_content
        [("choices", PyVal.list [.dict [("message", PyVal.dict [("content", PyVal.str " a fox ")])]])]
        [("message", PyVal.dict [("content", PyVal.str " a fox ")])]
        [("content", PyVal.str " a fox ")] [] " a fox " "i").1
      rfl rfl rfl).1 (by decide) |>.1⟩

/-- C5: the `__main__` workflow aborts with `exit(1)` at the first stage
that returns Failure, with no later stage executed and no retry: an idea
failure stops after `[idea]`, a prompt failure after `[idea, prompt]`, a
synthesizer failure after `[idea, prompt, synth]` — in particular the
materializer is never invoked and the filesystem is untouched, so no image
file is written — and a materializer failure stops before the publisher. -/
theorem pipeline_aborts_on_first_failure (env : MainEnv) :
    (generate_image_idea env.ideaEnv = .ok Option.none →
      (mainWorkflow env).exit = .exitCode 1 ∧
      (mainWorkflow env).stages = [.idea] ∧
      (mainWorkflow env).fs = env.dl.fs) ∧
    (∀ idea, generate_image_idea env.ideaEnv = .ok (some idea) →
      generate_detailed_prompt idea env.promptEnv = .ok Option.none →
      (mainWorkflow env).exit = .exitCode 1 ∧
      (mainWorkflow env).stages = [.idea, .prompt] ∧
      (mainWorkflow env).fs = env.dl.fs) ∧
    (∀ idea prompt, generate_image_idea env.ideaEnv = .ok (some idea) →
      generate_detailed_prompt idea env.promptEnv = .ok (some prompt) →
      generate_ai_image env.flux prompt = .ok Option.none →
      (mainWorkflow env).exit = .exitCode 1 ∧
      (mainWorkflow env).stages = [.idea, .prompt, .synth] ∧
      (mainWorkflow env).fs = env.dl.fs) ∧
    (∀ idea prompt s fs1, generate_image_idea env.ideaEnv = .ok (some idea) →
      generate_detailed_prompt idea env.promptEnv = .ok (some prompt) →
      generate_ai_image env.flux prompt = .ok (some (.str s)) →
      s.isEmpty = false →
      download_image env.dl s = (Option.none, fs1) →
      (mainWorkflow env).exit = .exitCode 1 ∧
      (mainWorkflow env).stages = [.idea, .prompt, .synth, .materialize] ∧
      Stage.publish ∉ (mainWorkflow env).stages) := by
  refine ⟨?_, ?_, ?_, ?_⟩
  · intro h1
    simp [mainWorkflow, h1]
  · intro idea h1 h2
    simp [mainWorkflow, h1, h2]
  · intro idea prompt h1 h2 h3
    simp [mainWorkflow, h1, h2, h3]
  · intro idea prompt s fs1 h1 h2 h3 hs h5
    simp [mainWorkflow, h1, h2, h3, pyFalsy, hs, h5]

/-- Witness for C5: in `mainEnvAbortW` the synthesizer fails on the
unrecognized shape, the run exits with status 1 after
`[idea, prompt, synth]`, and no file is written. -/
theorem pipeline_aborts_on_first_failure_witness :
    generate_ai_image mainEnvAbortW.flux "prompt" = .ok Option.none ∧
    ((mainWorkflow mainEnvAbortW).exit = .exitCode 1 ∧
     (mainWorkflow mainEnvAbortW).stages = [.idea, .prompt, .synth] ∧
     (mainWorkflow mainEnvAbortW).fs = mainEnvAbortW.dl.fs) :=
  ⟨rfl,
    (pipeline_aborts_on_first_failure mainEnvAbortW).2.2.1 "idea" "prompt" rfl rfl rfl⟩

/-- C7: for a valid source image reference — an `"http"`-prefixed URL
whose fetch succeeds and whose bytes decode, or an existing local path
whose copy succeeds and whose contents decode — `download_image` returns
the fresh destination name, and the file at that name is the result of
the decode / convert-to-RGB / re-encode-as-JPEG step, hence decodable as
a 3-channel JPEG regardless of the input format. -/
theorem download_image_roundtrip (env : DlEnv) (input : String) :
    (∀ b, pyStartsWith input "http" = true → env.httpGet input = .ok b →
      env.decodes (.raw b) = true →
      (download_image env input).1 = some env.freshName ∧
      (download_image env input).2 env.freshName = some (.jpegRGB b) ∧
      FileData.isJpeg3 (.jpegRGB b) = true) ∧
    (∀ fd, pyStartsWith input "http" = false → env.fs input = some fd →
      env.copyOk = true → env.decodes fd = true →
      (download_image env input).1 = some env.freshName ∧
      (download_image env input).2 env.freshName = some (.jpegRGB fd.content) ∧
      FileData.isJpeg3 (.jpegRGB fd.content) = true) := by
  constructor
  · intro b hpre hget hdec
    simp [download_image, hpre, hget, hdec, fsWrite, FileData.isJpeg3]
  · intro fd hpre hfs hcopy hdec
    simp [download_image, hpre, hfs, hcopy, hdec, fsWrite, FileData.isJpeg3]

/-- Witness for C7: fetching `"http://x/i.png"` (content id 3) in an
environment where everything succeeds yields the fresh name holding the
re-encoded JPEG. -/
theorem download_image_roundtrip_witness :
    pyStartsWith "http://x/i.png" "http" = true ∧
    (download_image
      (DlEnv.mk (fun _ => Except.ok 3) (fun _ => Option.none) true (fun _ => true) "g.jpg")
      "http://x/i.png").2 "g.jpg" = some (.jpegRGB 3) :=
  ⟨rfl,
    ((download_image_roundtrip
      (DlEnv.mk (fun _ => Except.ok 3) (fun _ => Option.none) true (fun _ => true) "g.jpg")
      "http://x/i.png").1 3 rfl rfl rfl).2.1⟩

/-- C9: `download_image` branches solely on the `"http"` string prefix:
an `"http"`-prefixed reference is fetched over the network even when a
local file of that name exists (a failed fetch fails the call, and a
successful fetch writes the network content); a non-`"http"` reference is
copied only if it exists locally; and a non-`"http"` reference that does
not exist returns Failure with the filesystem unchanged — no file
written. -/
theorem download_image_branching (env : DlEnv) (input : String) :
    (∀ fd, pyStartsWith input "http" = true → env.fs input = some fd →
      env.httpGet input = .error () →
      download_image env input = (Option.none, env.fs)) ∧
    (∀ b, pyStartsWith input "http" = true → env.httpGet input = .ok b →
      (download_image env input).2 env.freshName = some (.raw b) ∨
      (download_image env input).2 env.freshName = some (.jpegRGB b)) ∧
    (pyStartsWith input "http" = false → env.fs input = Option.none →
      download_image env input = (Option.none, env.fs)) ∧
    (∀ fd, pyStartsWith input "http" = false → env.fs input = some fd →
      env.copyOk = true →
      (download_image env input).2 env.freshName = some fd ∨
      (download_image env input).2 env.freshName = some (.jpegRGB fd.content)) := by
  refine ⟨?_, ?_, ?_, ?_⟩
  · intro fd hpre hfs hget
    simp [download_image, hpre, hget]
  · intro b hpre hget
    cases hdec : env.decodes (.raw b) with
    | true => right; simp [download_image, hpre, hget, hdec, fsWrite]
    | false => left; simp [download_image, hpre, hget, hdec, fsWrite]
  · intro hpre hfs
    simp [download_image, hpre, hfs]
  · intro fd hpre hfs hcopy
    cases hdec : env.decodes fd with
    | true => right; simp [download_image, hpre, hfs, hcopy, hdec, fsWrite]
    | false => left; simp [download_image, hpre, hfs, hcopy, hdec, fsWrite]

/-- Witness for C9: a local file named `"http-cache"` exists, yet the
`"http"`-prefixed reference is resolved over the network, and the failed
fetch fails the call; a missing local reference returns Failure with the
filesystem unchanged. -/
theorem download_image_branching_witness :
    (fun n => if n = "http-cache" then some (FileData.raw 9) else Option.none) "http-cache"
      = some (FileData.raw 9) ∧
    download_image
      (DlEnv.mk (fun _ => Except.error ())
        (fun n => if n = "http-cache" then some (FileData.raw 9) else Option.none)
        true (fun _ => true) "g.jpg")
      "http-cache"
      = (Option.none,
         fun n => if n = "http-cache" then some (FileData.raw 9) else Option.none) ∧
    download_image
      (DlEnv.mk (fun _ => Except.error ()) (fun _ => Option.none) true (fun _ => true) "g.jpg")
      "missing.png"
      = (Option.none, fun _ => Option.none) :=
  ⟨rfl,
    (download_image_branching
      (DlEnv.mk (fun _ => Except.error ())
        (fun n => if n = "http-cache" then some (FileData.raw 9) else Option.none)
        true (fun _ => true) "g.jpg")
      "http-cache").1 (FileData.raw 9) rfl rfl rfl,
    (download_image_branching
      (DlEnv.mk (fun _ => Except.error ()) (fun _ => Option.none) true (fun _ => true) "g.jpg")
      "missing.png").2.2.1 rfl rfl⟩

/-- Helper: the startup loop falls through exactly when no checked
variable is falsy. -/
theorem checkVars_none_of_all (vars : List String) (getenv : String → Option String)
    (h : ∀ v ∈ vars, envFalsy (getenv v) = false) :
    checkVars vars getenv = Option.none := by
  induction vars with
  | nil => rfl
  | cons v rest ih =>
    have hv : envFalsy (getenv v) = false := h v (by simp)
    simp only [checkVars, hv, Bool.false_eq_true, if_false]
    exact ih (fun w hw => h w (by simp [hw]))

/-- Helper: the startup loop calls `exit(1)` whenever some checked
variable is falsy. -/
theorem checkVars_exits_of_falsy (vars : List String) (getenv : String → Option String)
    (v : String) (hv : v ∈ vars) (h : envFalsy (getenv v) = true) :
    checkVars vars getenv = some 1 := by
  induction vars with
  | nil => cases hv
  | cons w rest ih =>
    cases hw : envFalsy (getenv w) with
    | true => simp [checkVars, hw]
    | false =>
      simp only [checkVars, hw, Bool.false_eq_true, if_false]
      rcases List.mem_cons.mp hv with h1 | h1
      · rw [h1] at h
        rw [h] at hw
        cases hw
      · exact ih h1

/-- Counterexample to C8: setting every required variable to the empty
string makes all four present in the process environment, yet the startup
check exits with status 1 before any stage runs — `if not os.getenv(var)`
treats a present-but-empty value as missing, contradicting "if all four
are present, startup proceeds". -/
theorem empty_env_var_exits :
    ((fun _ : String => some "") "OPENROUTER_API_KEY" = some "") ∧
    checkVars required_vars (fun _ => some "") = some 1 ∧
    (runProcess (fun _ => some "") mainEnvOkW).exit = .exitCode 1 ∧
    (runProcess (fun _ => some "") mainEnvOkW).stages = [] :=
  ⟨rfl, rfl, rfl, rfl⟩

/-- C8 as amended: if any of the four required configuration values is
missing from the process environment — or present with an empty value,
which the `if not os.getenv(var)` check treats as missing — the process
exits with status 1 before any pipeline stage runs; if all four are
present with non-empty values, startup proceeds into the workflow. -/
theorem startup_check_amended (getenv : String → Option String) (env : MainEnv) :
    (∀ v, v ∈ required_vars → envFalsy (getenv v) = true →
      (runProcess getenv env).exit = .exitCode 1 ∧
      (runProcess getenv env).stages = []) ∧
    ((∀ v, v ∈ required_vars → envFalsy (getenv v) = false) →
      runProcess getenv env = mainWorkflow env) := by
  constructor
  · intro v hv hfalsy
    have hc := checkVars_exits_of_falsy required_vars getenv v hv hfalsy
    simp [runProcess, hc]
  · intro h
    have hc := checkVars_none_of_all required_vars getenv h
    simp [runProcess, hc]

/-- Witness for the amended C8: with `INSTAGRAM_PASSWORD` unset the
process exits with status 1 and runs no stage; with all four set
non-empty the process runs the workflow. -/
theorem startup_check_amended_witness :
    envFalsy ((fun v => if v = "INSTAGRAM_PASSWORD" then Option.none else some "x")
        "INSTAGRAM_PASSWORD") = true ∧
    (runProcess (fun v => if v = "INSTAGRAM_PASSWORD" then Option.none else some "x")
        mainEnvOkW).exit = .exitCode 1 ∧
    runProcess (fun _ => some "x") mainEnvOkW = mainWorkflow mainEnvOkW :=
  ⟨rfl,
    ((startup_check_amended
        (fun v => if v = "INSTAGRAM_PASSWORD" then Option.none else some "x") mainEnvOkW).1
      "INSTAGRAM_PASSWORD" (by simp [required_vars]) rfl).1,
    (startup_check_amended (fun _ => some "x") mainEnvOkW).2 (fun v _ => rfl)⟩

/-- C10: after a successful materialization the workflow calls the
publisher, discards its result, logs "Process completed successfully."
and ends with exit status 0 — for every browser environment, including
one in which `post_to_instagram` reports failure. -/
theorem main_ignores_publish_result (env : MainEnv) (idea prompt s f : String)
    (fs1 : String → Option FileData)
    (h1 : generate_image_idea env.ideaEnv = .ok (some idea))
    (h2 : generate_detailed_prompt idea env.promptEnv = .ok (some prompt))
    (h3 : generate_ai_image env.flux prompt = .ok (some (.str s)))
    (h4 : s.isEmpty = false)
    (h5 : download_image env.dl s = (some f, fs1)) :
    ((mainWorkflow env).exit = .exitCode 0 ∧
     (mainWorkflow env).successLogged = true ∧
     Stage.publish ∈ (mainWorkflow env).stages) ∧
    (∀ bot2 : BotEnv,
      (mainWorkflow (MainEnv.mk env.ideaEnv env.promptEnv env.flux env.dl bot2)).exit
        = .exitCode 0) := by
  constructor
  · simp [mainWorkflow, h1, h2, h3, pyFalsy, h4, h5]
  · intro bot2
    simp [mainWorkflow, h1, h2, h3, pyFalsy, h4, h5]

/-- Witness for C10: in `mainEnvOkW` the login fails so the publish
attempt reports failure, yet the run logs success and exits with 0. -/
theorem main_ignores_publish_result_witness :
    (post_to_instagram mainEnvOkW.bot).1 = false ∧
    (mainWorkflow mainEnvOkW).exit = .exitCode 0 ∧
    (mainWorkflow mainEnvOkW).successLogged = true :=
  ⟨rfl,
    ((main_ignores_publish_result mainEnvOkW "idea" "prompt" "src.png"
        "generated_image_w.jpg"
        (fsWrite (fsWrite mainEnvOkW.dl.fs "generated_image_w.jpg" (.raw 7))
          "generated_image_w.jpg" (.jpegRGB 7))
        rfl rfl rfl rfl rfl).1).1,
    ((main_ignores_publish_result mainEnvOkW "idea" "prompt" "src.png"
        "generated_image_w.jpg"
        (fsWrite (fsWrite mainEnvOkW.dl.fs "generated_image_w.jpg" (.raw 7))
          "generated_image_w.jpg" (.jpegRGB 7))
        rfl rfl rfl rfl rfl).1).2.1⟩
